import Mathlib

/-!
Verification of the `useFetchedData` React hook (src/hooks/useFetchedData.js)
as a shallow embedding.

The hook is:

  const useFetchedData = () => {
    const [data, setData] = useState(null);
    const [error, setError] = useState(null);
    const [loading, setLoading] = useState(true);
    useEffect(() => {
      const abortController = new AbortController();
      const fetchData = async () => {
        try {
          const response = await fetch(API_URL, { signal: abortController.signal });
          const json = await response.json();
          setData(json);
        } catch (error) { setError(error); }
        finally { setLoading(false); }
      };
      fetchData();
      return () => { abortController.abort(); };
    }, []);
    return { data, error, loading };
  };

Embedding choices, following the JS/React/fetch semantics the code runs under:
  * One activation (mount .. unmount) is a deterministic function of the
    environment's behaviour of the single `fetch` call (`FetchOutcome`) and of
    when the component unmounts relative to the request settling
    (`UnmountTime`).
  * `useState` setters: a setter invoked while the component is mounted
    commits a new state (a re-render); a setter invoked after unmount is a
    no-op on the committed state (React discards updates to unmounted
    components).  Both the committed state trace and the raw setter
    invocations are recorded, the invocations split into those before and
    those after the cleanup ran.
  * `fetch` with an abort signal: if the signal is aborted while the request
    is pending, the promise (and any pending body read) rejects with the
    abort error; otherwise the settled result is determined by the outcome.
    The response's status code is carried in the outcome but, like the code,
    never inspected.
-/

/-- An HTTP request as issued by the effect's single `fetch` call: target url
and method. -/
structure Request where
  url : String
  method : String
deriving DecidableEq

/-- The fixed endpoint from the source: `const API_URL = "https://jsonplaceholder.typicode.com/posts"`. -/
def API_URL : String := "https://jsonplaceholder.typicode.com/posts"

/-- The request issued by `fetch(API_URL, { signal })`: the default method of
`fetch` is GET. -/
def apiRequest : Request := ⟨API_URL, "GET"⟩

/-- One fetched record, as in the repository's mocked payloads: opaque
pass-through fields. -/
structure Item where
  userId : Nat
  id : Nat
  title : String
  body : String
deriving DecidableEq

/-- The payload used by the repository's tests:
`[{ body: "mocked body", id: 1, title: "mock title", userId: 1 }]`. -/
def demoPayload : List Item := [⟨1, 1, "mock title", "mocked body"⟩]

/-- JS exception values that can reach the `catch (error)` clause: the abort
`DOMException` raised when the signal is aborted, or a rejection value `e`
coming from the environment (network error, rejected promise, body-parse
failure), included unchanged. -/
inductive JsError (ε : Type) where
  | abortError
  | external (e : ε)
deriving DecidableEq

/-- The state triple held by the hook and returned to the consumer as
`{ data, error, loading }`. -/
structure HookState (α ε : Type) where
  data : Option α
  error : Option ε
  loading : Bool
deriving DecidableEq

/-- The initial state, from `useState(null)`, `useState(null)`,
`useState(true)`. -/
def initState {α ε : Type} : HookState α ε := ⟨none, none, true⟩

/-- One invocation of a state setter, with its argument. -/
inductive SetterCall (α ε : Type) where
  | setData (p : α)
  | setError (e : ε)
  | setLoading (b : Bool)
deriving DecidableEq

/-- Whether a setter invocation is a `setLoading` call. -/
def isSetLoading {α ε : Type} : SetterCall α ε → Bool
  | .setLoading _ => true
  | _ => false

/-- The committed state after applying one setter call on a mounted
component. -/
def applySetter {α ε : Type} (s : HookState α ε) : SetterCall α ε → HookState α ε
  | .setData p => { s with data := some p }
  | .setError e => { s with error := some e }
  | .setLoading b => { s with loading := b }

/-- The committed-state trace obtained by applying a list of setter calls in
order on a mounted component, starting from `s` (each applied call commits a
re-rendered state). -/
def commitTrace {α ε : Type} (s : HookState α ε) : List (SetterCall α ε) → List (HookState α ε)
  | [] => [s]
  | c :: cs => s :: commitTrace (applySetter s c) cs

/-- Environment behaviour of the single `fetch` call: the promise either
resolves with a response (an HTTP status code and the result of
`response.json()`, which itself resolves to a payload or rejects) or
rejects outright. -/
inductive FetchOutcome (α ε : Type) where
  | resolved (status : Nat) (body : Except ε α)
  | rejected (e : ε)

/-- When the component unmounts relative to the pending request settling:
before it settles, after the async function finished, or not at all during
the observed window. -/
inductive UnmountTime where
  | beforeSettle
  | afterDone
  | never
deriving DecidableEq

/-- The settled result of `await fetch(API_URL, {signal}); await
response.json()` given whether the signal was aborted while pending: an
aborted signal makes the pipeline reject with the abort error; otherwise the
status is never inspected and the body-parse result decides, and a rejected
fetch propagates the environment's rejection value unchanged. -/
def settle {α ε : Type} : Bool → FetchOutcome α ε → Except (JsError ε) α
  | true, _ => .error .abortError
  | false, .resolved _ (.ok p) => .ok p
  | false, .resolved _ (.error e) => .error (.external e)
  | false, .rejected e => .error (.external e)

/-- The setter invocations performed by the `fetchData` body once its awaits
have settled with `result`: the try branch stores the parsed json via
`setData`; the catch branch stores the caught value via `setError`; the
finally branch always runs `setLoading(false)` last. -/
def fetchData {α ε : Type} : Except (JsError ε) α → List (SetterCall α (JsError ε))
  | .ok json => [.setData json, .setLoading false]
  | .error e => [.setError e, .setLoading false]

/-- Everything observable about one activation of `useFetchedData`: the
committed state trace (first element is the initially rendered state), the
setter invocations made before and after the effect's cleanup ran, the
requests issued, and how many times `abortController.abort()` was called. -/
structure RunLog (α ε : Type) where
  states : List (HookState α (JsError ε))
  callsPreCleanup : List (SetterCall α (JsError ε))
  callsPostCleanup : List (SetterCall α (JsError ε))
  requests : List Request
  abortCalls : Nat

/-- One activation of `useFetchedData` under fetch behaviour `o` and unmount
time `u`.  On mount the effect creates the controller, issues the single
`fetch(API_URL, {signal})` (hence one GET request in every case) and starts
`fetchData`.  If the component unmounts before the request settles, the
cleanup calls `abort()` once, the pending awaits reject with the abort
error, and `fetchData`'s catch and finally branches run on the unmounted
component: their setter invocations are recorded post-cleanup and commit
nothing.  Otherwise `fetchData` settles while mounted and each setter call
commits; unmounting afterwards still calls `abort()` once, which has no
further effect on the already-settled promise. -/
def runActivation {α ε : Type} (o : FetchOutcome α ε) (u : UnmountTime) : RunLog α ε :=
  match u with
  | .beforeSettle =>
      { states := [initState]
        callsPreCleanup := []
        callsPostCleanup := fetchData (settle true o)
        requests := [apiRequest]
        abortCalls := 1 }
  | .afterDone =>
      { states := commitTrace initState (fetchData (settle false o))
        callsPreCleanup := fetchData (settle false o)
        callsPostCleanup := []
        requests := [apiRequest]
        abortCalls := 1 }
  | .never =>
      { states := commitTrace initState (fetchData (settle false o))
        callsPreCleanup := fetchData (settle false o)
        callsPostCleanup := []
        requests := [apiRequest]
        abortCalls := 0 }

/-- C2: in every activation the first state the hook returns, and the only
one before the asynchronous request has settled, is exactly
`(data = null, error = null, loading = true)`. -/
theorem initial_state_triple {α ε : Type} (o : FetchOutcome α ε) (u : UnmountTime) :
    (runActivation o u).states.head? = some ⟨none, none, true⟩ := by
  cases u <;> rcases o with ⟨st, e | p⟩ | e <;> rfl

/-- C3: in every activation that stays mounted until the request settles, if
the fetch resolves and its body parses to `p`, the final committed state is
exactly `(data = p, error = null, loading = false)` (for any status code). -/
theorem success_sets_data_clears_loading {α ε : Type} (st : Nat) (p : α) (u : UnmountTime)
    (h : u ≠ UnmountTime.beforeSettle) :
    (runActivation (FetchOutcome.resolved st (Except.ok p) : FetchOutcome α ε) u).states.getLast? =
      some ⟨some p, none, false⟩ := by
  cases u with
  | beforeSettle => exact absurd rfl h
  | afterDone => rfl
  | never => rfl

/-- Witness for C3: the mocked success run of the test suite, ending in
`(data = demoPayload, error = null, loading = false)`. -/
theorem success_sets_data_clears_loading_witness :
    UnmountTime.never ≠ UnmountTime.beforeSettle ∧
    (runActivation (FetchOutcome.resolved 200 (Except.ok demoPayload) : FetchOutcome (List Item) String)
        UnmountTime.never).states.getLast? = some ⟨some demoPayload, none, false⟩ :=
  ⟨by decide, success_sets_data_clears_loading 200 demoPayload UnmountTime.never (by decide)⟩

/-- C4: in every activation that stays mounted until the request settles, if
the fetch promise rejects with `e`, or resolves but `response.json()` rejects
with `e`, the final committed state is `(data = null, error = e, loading =
false)`; the stored error is the environment's rejection value itself
(`JsError.external` is the inclusion of that value among JS exception values,
not a wrapper applied by the code). -/
theorem failure_surfaces_error_verbatim {α ε : Type} (e : ε) (st : Nat) (u : UnmountTime)
    (h : u ≠ UnmountTime.beforeSettle) :
    (runActivation (FetchOutcome.rejected e : FetchOutcome α ε) u).states.getLast? =
      some ⟨none, some (JsError.external e), false⟩ ∧
    (runActivation (FetchOutcome.resolved st (Except.error e) : FetchOutcome α ε) u).states.getLast? =
      some ⟨none, some (JsError.external e), false⟩ := by
  cases u with
  | beforeSettle => exact absurd rfl h
  | afterDone => exact ⟨rfl, rfl⟩
  | never => exact ⟨rfl, rfl⟩

/-- Witness for C4: the mocked rejection of the test suite (fetch rejects
with the error "mocked error"), surfaced unchanged in the final state. -/
theorem failure_surfaces_error_verbatim_witness :
    UnmountTime.never ≠ UnmountTime.beforeSettle ∧
    ((runActivation (FetchOutcome.rejected "mocked error" : FetchOutcome (List Item) String)
        UnmountTime.never).states.getLast? =
      some ⟨none, some (JsError.external "mocked error"), false⟩ ∧
    (runActivation (FetchOutcome.resolved 500 (Except.error "mocked error") : FetchOutcome (List Item) String)
        UnmountTime.never).states.getLast? =
      some ⟨none, some (JsError.external "mocked error"), false⟩) :=
  ⟨by decide, failure_surfaces_error_verbatim "mocked error" 500 UnmountTime.never (by decide)⟩

/-- C6: `abortController.abort()` is invoked exactly once whenever the
component is deactivated, whether the request had settled by then or not,
and not at all if the component is never deactivated. -/
theorem abort_invoked_once_on_deactivation {α ε : Type} (o : FetchOutcome α ε) (u : UnmountTime) :
    (runActivation o u).abortCalls =
      (match u with | UnmountTime.never => 0 | _ => 1) := by
  cases u <;> rfl

/-- C7: every activation issues exactly one outbound request, an HTTP GET to
the fixed `API_URL`, whatever the fetch behaviour and unmount time. -/
theorem single_get_request_to_api_url {α ε : Type} (o : FetchOutcome α ε) (u : UnmountTime) :
    (runActivation o u).requests = [⟨API_URL, "GET"⟩] := by
  cases u <;> rfl

/-- C9: in every committed state of every activation, at most one of `data`
and `error` is non-null: the success path sets `data` with `error` still
null, the failure path sets `error` with `data` still null. -/
theorem data_error_never_both_set {α ε : Type} (o : FetchOutcome α ε) (u : UnmountTime) :
    ((runActivation o u).states.all fun s => !(s.data.isSome && s.error.isSome)) = true := by
  cases u <;> rcases o with ⟨st, e | p⟩ | e <;> rfl

/-- C1 counterexample: in a concrete activation unmounted before the request
settles, the cleanup's `abort()` makes the pending fetch reject, so the catch
branch still invokes `setError` (with the abort error) and the finally branch
still invokes `setLoading(false)` after the cleanup ran — refuting the claim
that after the cleanup no assignment of `data`, `error` or `loading` is
attempted and that the catch and finally branches do not set them. -/
theorem abort_does_not_stop_catch :
    (runActivation (FetchOutcome.resolved 200 (Except.ok demoPayload) : FetchOutcome (List Item) String)
        UnmountTime.beforeSettle).callsPostCleanup =
      [SetterCall.setError JsError.abortError, SetterCall.setLoading false] := rfl

/-- C1 amended: in every activation unmounted before the request settles, the
catch and finally branches do run after teardown and invoke
`setError(abortError)` and `setLoading(false)`, but both updates are
discarded because the component is unmounted, so the committed state never
changes after the cleanup: the state trace is exactly the initial
`(null, null, true)` and nothing later. -/
theorem cleanup_observable_state_frozen {α ε : Type} (o : FetchOutcome α ε) :
    (runActivation o UnmountTime.beforeSettle).states = [⟨none, none, true⟩] ∧
    (runActivation o UnmountTime.beforeSettle).callsPostCleanup =
      [SetterCall.setError JsError.abortError, SetterCall.setLoading false] :=
  ⟨rfl, rfl⟩

/-- C5 counterexample: in a concrete activation unmounted before the request
settles, the committed `loading` flag never becomes false — the single
`setLoading(false)` is invoked after unmount and discarded — refuting the
claim that in every activation the flag transitions from true to false
exactly once. -/
theorem aborted_activation_loading_stays_true :
    ((runActivation (FetchOutcome.resolved 200 (Except.ok demoPayload) : FetchOutcome (List Item) String)
        UnmountTime.beforeSettle).states.map fun s => s.loading) = [true] := rfl

/-- C5 amended: in every activation, `setLoading` is invoked exactly once,
with argument `false` (never back to true), whether the request succeeds or
fails; the committed flag starts true and, in every activation that stays
mounted until the request settles, transitions true to false exactly once,
while an activation unmounted before settlement drops that single update and
its committed flag stays true. -/
theorem loading_single_transition {α ε : Type} (o : FetchOutcome α ε) (u : UnmountTime) :
    ((runActivation o u).callsPreCleanup ++ (runActivation o u).callsPostCleanup).filter
        isSetLoading = [SetterCall.setLoading false] ∧
    ((runActivation o u).states.map fun s => s.loading) =
      (match u with
       | UnmountTime.beforeSettle => [true]
       | _ => [true, true, false]) := by
  cases u <;> rcases o with ⟨st, e | p⟩ | e <;> exact ⟨rfl, rfl⟩

/-- C8: a failure is terminal for its activation: the whole committed trace
of a failing activation is the initial state, then the state with the error
set (and `data` still null), then the same with `loading` cleared — so after
the error is set it stays that same error and `data` stays null — and only
the one original request is ever issued, so no retry occurs. -/
theorem failure_is_terminal_no_retry {α ε : Type} (e : ε) (st : Nat) (u : UnmountTime) :
    (runActivation (FetchOutcome.rejected e : FetchOutcome α ε) u).states =
      (match u with
       | UnmountTime.beforeSettle => [⟨none, none, true⟩]
       | _ => [⟨none, none, true⟩, ⟨none, some (JsError.external e), true⟩,
               ⟨none, some (JsError.external e), false⟩]) ∧
    (runActivation (FetchOutcome.resolved st (Except.error e) : FetchOutcome α ε) u).states =
      (match u with
       | UnmountTime.beforeSettle => [⟨none, none, true⟩]
       | _ => [⟨none, none, true⟩, ⟨none, some (JsError.external e), true⟩,
               ⟨none, some (JsError.external e), false⟩]) ∧
    (runActivation (FetchOutcome.rejected e : FetchOutcome α ε) u).requests.length = 1 ∧
    (runActivation (FetchOutcome.resolved st (Except.error e) : FetchOutcome α ε) u).requests.length = 1 := by
  cases u <;> exact ⟨rfl, rfl, rfl, rfl⟩

/-- C10: the hook never inspects the response's status code: activations
whose fetch resolves with the same body behave identically for any two
status codes, and in particular a non-2xx response whose body parses to `p`
still ends (when mounted at settlement) in `(data = p, error = null,
loading = false)`. -/
theorem response_status_never_inspected {α ε : Type} (s1 s2 : Nat) (b : Except ε α) (p : α)
    (u : UnmountTime) :
    runActivation (FetchOutcome.resolved s1 b) u = runActivation (FetchOutcome.resolved s2 b) u ∧
    (runActivation (FetchOutcome.resolved s1 (Except.ok p) : FetchOutcome α ε) u).states.getLast? =
      some (match u with
            | UnmountTime.beforeSettle => ⟨none, none, true⟩
            | _ => ⟨some p, none, false⟩) := by
  cases u <;> cases b <;> exact ⟨rfl, rfl⟩
